import Mathlib

/-!
Shallow embedding of the Notes App (FastAPI + SQLAlchemy/SQLite CRUD service
with an MCP agent bridge) and proofs about its observable contract.

The store is modelled as a list of rows in rowid order.  SQLite assigns a new
rowid one larger than the largest rowid currently in the table (1 when the
table is empty); since every new id exceeds every stored id, appending the new
row keeps the list in rowid order, which is also the order an unsorted
`SELECT` returns rows in.
-/

namespace NotesApp

/-- Row of the `notes` table (`models.py`): `id INTEGER PRIMARY KEY`,
`title VARCHAR`, `content TEXT`, `created_at DATETIME` with a Python-side
default of `datetime.utcnow`.  `created_at` is nullable at the schema level,
hence `Option`; timestamps are modelled as integers. -/
structure Note where
  id : Int
  title : String
  content : String
  created_at : Option Int
  deriving DecidableEq

/-- Database state: the rows of the single `notes` table, in rowid order. -/
abbrev DB := List Note

/-- Rowid chosen by SQLite for an insert into a table whose `INTEGER PRIMARY
KEY` column has no `AUTOINCREMENT` (the DDL generated from `models.py`): one
more than the largest rowid currently in the table, or 1 if the table is
empty.  Rowids of deleted rows can therefore be reused. -/
def nextId (db : DB) : Int :=
  match db.map (fun m => m.id) with
  | [] => 1
  | x :: xs => xs.foldl max x + 1

/-- Handler `create_note` of `main.py`: builds a `Note` from the validated
title and content, adds it, commits, refreshes (obtaining the generated `id`
and defaulted `created_at`, the insertion moment `now`), and returns the
persisted object.  Result: the returned note and the new table state. -/
def create_note (db : DB) (title content : String) (now : Int) : Note × DB :=
  let db_note : Note :=
    { id := nextId db, title := title, content := content, created_at := some now }
  (db_note, db ++ [db_note])

/-- Handler `read_notes` of `main.py`:
`db.query(Note).offset(skip).limit(limit).all()`.  SQLite treats a negative
`OFFSET` as 0 and a negative `LIMIT` as no limit.  The handler performs no
write, so the table state is returned unchanged alongside the rows. -/
def read_notes (db : DB) (skip limit : Int) : List Note × DB :=
  let after := db.drop skip.toNat
  (if limit < 0 then after else after.take limit.toNat, db)

/-- Outcome of the delete handler: the 200 body
`{"status": ..., "message": ...}` or the raised
`HTTPException(status_code, detail)`. -/
inductive DeleteResult where
  | ok (status message : String)
  | httpError (status_code : Nat) (detail : String)
  deriving DecidableEq

/-- Handler `delete_note` of `main.py`: looks the note up with
`filter(Note.id == note_id).first()`; raises a 404 `HTTPException` with
detail "Note not found" if absent, otherwise deletes the row (SQL
`DELETE FROM notes WHERE id = note_id`) and returns the success body. -/
def delete_note (db : DB) (note_id : Int) : DeleteResult × DB :=
  match db.find? (fun m => m.id == note_id) with
  | none => (.httpError 404 "Note not found", db)
  | some _ =>
      (.ok "success" "Note deleted", db.filter (fun m => m.id != note_id))

/-- States reachable from the empty table through the API operations. -/
inductive Reachable : DB → Prop where
  | empty : Reachable []
  | create {d : DB} {t c : String} {n : Int} :
      Reachable d → Reachable (create_note d t c n).2
  | delete {d : DB} {n : Int} :
      Reachable d → Reachable (delete_note d n).2

/-- Value a JSON request field can carry, as far as the validation layer
distinguishes them: a string, some non-string value, or JSON null. -/
inductive FieldValue where
  | str (s : String)
  | nonString
  | null
  deriving DecidableEq

/-- Raw create-request body: each of the two expected fields is present with
some value or missing. -/
structure RawPayload where
  title : Option FieldValue
  content : Option FieldValue
  deriving DecidableEq

/-- Modelled from the spec: the validated create-request shape of
`schemas.py` (`NoteCreate`), which is imported by `main.py` but absent from
the sources; the spec requires `title` (non-empty text) and `content`
(text). -/
structure NoteCreate where
  title : String
  content : String
  deriving DecidableEq

/-- Validation failure naming the offending field(s). -/
structure ValidationError where
  fields : List String
  deriving DecidableEq

/-- Truth of: the `title` field is missing, not a string, or empty. -/
def titleBad (v : Option FieldValue) : Bool :=
  match v with
  | some (.str s) => s.isEmpty
  | _ => true

/-- Truth of: the `content` field is missing or not a string. -/
def contentBad (v : Option FieldValue) : Bool :=
  match v with
  | some (.str _) => false
  | _ => true

/-- Modelled from the spec: validation of the create-request body against the
`NoteCreate` shape of the absent `schemas.py` — a malformed payload (missing
required field, wrong kind, or empty title) fails with a `ValidationError`
identifying the offending field(s); a well-formed one yields the parsed
structure. -/
def validate_note_create (p : RawPayload) : Except ValidationError NoteCreate :=
  match p.title, p.content with
  | some (.str t), some (.str c) =>
      if t.isEmpty then .error ⟨["title"]⟩ else .ok ⟨t, c⟩
  | t?, c? =>
      .error ⟨(if titleBad t? then ["title"] else []) ++
              (if contentBad c? then ["content"] else [])⟩

/-- Route `POST /notes/` as a whole: the body is validated against
`NoteCreate` before the handler runs; a validation failure produces an error
response and never touches the session, otherwise `create_note` runs. -/
def api_create (db : DB) (p : RawPayload) (now : Int) :
    Except ValidationError Note × DB :=
  match validate_note_create p with
  | .error e => (.error e, db)
  | .ok nc =>
      let r := create_note db nc.title nc.content now
      (.ok r.1, r.2)

/-- Outcome of the HTTP round trip made by the bridge create tool: a 2xx
response whose JSON body carries the assigned id, a non-2xx response (for
which `raise_for_status` raises an `HTTPStatusError` rendering as `m`), or a
transport-level failure (an `httpx.HTTPError` rendering as `m`). -/
inductive CreateApiOutcome where
  | success (i : Int)
  | statusError (code : Nat) (m : String)
  | transportError (m : String)
  deriving DecidableEq

/-- Bridge tool `create_new_note` of `notes_mcp.py`: posts the payload, calls
`raise_for_status`, and renders the result as text; every `httpx.HTTPError`
(status or transport) is caught and rendered, so the tool always returns a
string. -/
def create_new_note (title content : String) (o : CreateApiOutcome) : String :=
  match o with
  | .success i => "Success! Note created with ID " ++ toString i ++ "."
  | .statusError _ m => "Error connecting to Notes App: " ++ m
  | .transportError m => "Error connecting to Notes App: " ++ m

/-- Outcome of the HTTP round trip made by the bridge delete tool: a response
with some status code (`m` being the text of the `HTTPStatusError` that
`raise_for_status` would raise for it), or a transport-level failure
rendering as `m`. -/
inductive HttpOutcome where
  | status (code : Nat) (m : String)
  | transportError (m : String)
  deriving DecidableEq

/-- Bridge tool `delete_note_by_id` of `notes_mcp.py`: issues the delete,
returns a dedicated message on status 404, otherwise calls
`raise_for_status` (which raises exactly when the status is not 2xx) and
reports success; every `httpx.HTTPError` is caught and rendered as text. -/
def delete_note_by_id (note_id : Int) (o : HttpOutcome) : String :=
  match o with
  | .status code m =>
      if code == 404 then
        "Error: Note with ID " ++ toString note_id ++ " was not found."
      else if 200 ≤ code ∧ code ≤ 299 then
        "Note " ++ toString note_id ++ " has been deleted."
      else
        "Error deleting note: " ++ m
  | .transportError m => "Error deleting note: " ++ m

/-! Characterizations of the operations, and invariants of reachable
states. -/

/-- Unfolding of `create_note`. -/
lemma create_note_eq (db : DB) (t c : String) (now : Int) :
    create_note db t c now =
      (⟨nextId db, t, c, some now⟩, db ++ [⟨nextId db, t, c, some now⟩]) := rfl

/-- Unfolding of `delete_note` when the id is absent. -/
lemma delete_note_of_absent {db : DB} {n : Int}
    (h : db.find? (fun m => m.id == n) = none) :
    delete_note db n = (.httpError 404 "Note not found", db) := by
  unfold delete_note
  rw [h]

/-- Unfolding of `delete_note` when the id is present. -/
lemma delete_note_of_found {db : DB} {n : Int} {u : Note}
    (h : db.find? (fun m => m.id == n) = some u) :
    delete_note db n =
      (.ok "success" "Note deleted", db.filter (fun m => m.id != n)) := by
  unfold delete_note
  rw [h]

/-- Seed of a `foldl max` is bounded by the result. -/
lemma le_foldl_max (x : Int) (l : List Int) : x ≤ l.foldl max x := by
  induction l generalizing x with
  | nil => exact le_refl x
  | cons y ys ih =>
      rw [List.foldl_cons]
      exact le_trans (le_max_left x y) (ih (max x y))

/-- Members of a list are bounded by its `foldl max`. -/
lemma le_foldl_max_of_mem {a : Int} {l : List Int} (h : a ∈ l) (x : Int) :
    a ≤ l.foldl max x := by
  induction l generalizing x with
  | nil => cases h
  | cons y ys ih =>
      rw [List.foldl_cons]
      rcases List.mem_cons.mp h with h1 | h2
      · subst h1
        exact le_trans (le_max_right x a) (le_foldl_max _ _)
      · exact ih h2 _

/-- Freshness of the assigned rowid: it exceeds every id in the table. -/
lemma id_lt_nextId {db : DB} {m : Note} (h : m ∈ db) : m.id < nextId db := by
  have hm : m.id ∈ db.map (fun m => m.id) := List.mem_map_of_mem _ h
  unfold nextId
  cases hmap : db.map (fun m => m.id) with
  | nil => rw [hmap] at hm; cases hm
  | cons x xs =>
      rw [hmap] at hm
      rcases List.mem_cons.mp hm with h1 | h2
      · rw [h1]
        exact lt_of_le_of_lt (le_foldl_max x xs) (lt_add_one _)
      · exact lt_of_le_of_lt (le_foldl_max_of_mem h2 x) (lt_add_one _)

/-- Positivity of the assigned rowid over a table whose ids are positive. -/
lemma nextId_pos {db : DB} (h : ∀ m ∈ db, 0 < m.id) : 0 < nextId db := by
  unfold nextId
  cases hmap : db.map (fun m => m.id) with
  | nil => norm_num
  | cons x xs =>
      have hx : x ∈ db.map (fun m => m.id) := by
        rw [hmap]; exact List.mem_cons_self x xs
      rcases List.mem_map.mp hx with ⟨m, hm, hid⟩
      have h0 : 0 < x := hid ▸ h m hm
      have h1 := le_foldl_max x xs
      show 0 < xs.foldl max x + 1
      omega

/-- Rows surviving a delete were rows of the table. -/
lemma mem_of_mem_delete {db : DB} {n : Int} {m : Note}
    (h : m ∈ (delete_note db n).2) : m ∈ db := by
  cases hf : db.find? (fun k => k.id == n) with
  | none => rw [delete_note_of_absent hf] at h; exact h
  | some u =>
      rw [delete_note_of_found hf] at h
      exact (List.mem_filter.mp h).1

/-- Deletion only removes rows. -/
lemma delete_sublist (db : DB) (n : Int) : (delete_note db n).2.Sublist db := by
  cases hf : db.find? (fun k => k.id == n) with
  | none => rw [delete_note_of_absent hf]
  | some u => rw [delete_note_of_found hf]; exact List.filter_sublist db

/-- Every reachable table has only positive ids. -/
lemma reachable_pos {db : DB} (h : Reachable db) : ∀ m ∈ db, 0 < m.id := by
  induction h with
  | empty => intro m hm; cases hm
  | @create d t c n hd ih =>
      intro m hm
      rw [create_note_eq] at hm
      rcases List.mem_append.mp hm with h1 | h2
      · exact ih m h1
      · rw [List.mem_singleton.mp h2]
        exact nextId_pos ih
  | @delete d n hd ih =>
      intro m hm
      exact ih m (mem_of_mem_delete hm)

/-- Every reachable table has pairwise distinct ids. -/
lemma reachable_nodup {db : DB} (h : Reachable db) :
    (db.map (fun m => m.id)).Nodup := by
  induction h with
  | empty => simp
  | @create d t c n hd ih =>
      rw [create_note_eq, List.map_append, List.nodup_append]
      refine ⟨ih, List.nodup_singleton _, ?_⟩
      intro a ha hb
      rcases List.mem_map.mp ha with ⟨m, hm, hid⟩
      have hlt := id_lt_nextId hm
      have hmap : a = nextId d := by simpa using hb
      omega
  | @delete d n hd ih =>
      exact List.Nodup.sublist (List.Sublist.map _ (delete_sublist d n)) ih

/-- Rows returned by the list handler are rows of the table. -/
lemma mem_of_mem_read {db : DB} {skip limit : Int} {m : Note}
    (h : m ∈ (read_notes db skip limit).1) : m ∈ db := by
  simp only [read_notes] at h
  by_cases hl : limit < 0
  · rw [if_pos hl] at h
    exact List.mem_of_mem_drop h
  · rw [if_neg hl] at h
    exact List.mem_of_mem_drop (List.mem_of_mem_take h)

/-- Strings differing at some character position differ. -/
lemma string_ne_of_data_get (s t : String) (k : Nat)
    (h : s.data[k]? ≠ t.data[k]?) : s ≠ t :=
  fun e => h (by rw [e])

/-! Claims. -/

/-- C1: a create request that passes validation inserts exactly one row and
returns the persisted representation — a positive integer id, the submitted
title and content, and a non-null `created_at`. -/
theorem create_persists (db : DB) (p : RawPayload) (now : Int) (t c : String)
    (hr : Reachable db) (hv : validate_note_create p = .ok ⟨t, c⟩) :
    ∃ n : Note, (api_create db p now).1 = .ok n ∧ 0 < n.id ∧ n.title = t ∧
      n.content = c ∧ n.created_at ≠ none ∧ (api_create db p now).2 = db ++ [n] := by
  refine ⟨⟨nextId db, t, c, some now⟩, ?_, nextId_pos (reachable_pos hr), rfl, rfl,
    Option.some_ne_none now, ?_⟩
  · unfold api_create
    rw [hv]
    rfl
  · unfold api_create
    rw [hv]
    rfl

/-- Sample valid create-request body. -/
def goodPayload : RawPayload := ⟨some (.str "A"), some (.str "B")⟩

/-- Witness for C1 on the empty store and the payload title "A", content
"B". -/
theorem create_persists_witness :
    Reachable ([] : DB) ∧ validate_note_create goodPayload = .ok ⟨"A", "B"⟩ ∧
    (∃ n : Note, (api_create [] goodPayload 0).1 = .ok n ∧ 0 < n.id ∧
      n.title = "A" ∧ n.content = "B" ∧ n.created_at ≠ none ∧
      (api_create [] goodPayload 0).2 = [] ++ [n]) :=
  ⟨Reachable.empty, rfl,
    create_persists [] goodPayload 0 "A" "B" Reachable.empty rfl⟩

/-- C2: deleting an id no stored note bears fails with a 404 error carrying a
descriptive detail, and leaves the table exactly as it was. -/
theorem delete_absent_rejected (db : DB) (n : Int) (h : ∀ m ∈ db, m.id ≠ n) :
    (delete_note db n).1 = .httpError 404 "Note not found" ∧
    (delete_note db n).2 = db := by
  have hf : db.find? (fun m => m.id == n) = none := by
    rw [List.find?_eq_none]
    intro m hm
    simpa using h m hm
  rw [delete_note_of_absent hf]
  exact ⟨rfl, rfl⟩

/-- Witness for C2: deleting id 999999 on the empty store. -/
theorem delete_absent_rejected_witness :
    (∀ m ∈ ([] : DB), m.id ≠ 999999) ∧
    ((delete_note [] 999999).1 = .httpError 404 "Note not found" ∧
     (delete_note [] 999999).2 = []) :=
  ⟨by simp, delete_absent_rejected [] 999999 (by simp)⟩

/-- C3: deleting a stored id succeeds with the success acknowledgment, a
subsequent list with default parameters no longer contains that id, and a
second delete of the same id fails with 404 not-found. -/
theorem delete_removes_permanently (db : DB) (n : Int)
    (h : ∃ m ∈ db, m.id = n) :
    (delete_note db n).1 = .ok "success" "Note deleted" ∧
    (∀ m ∈ (read_notes (delete_note db n).2 0 100).1, m.id ≠ n) ∧
    (delete_note (delete_note db n).2 n).1 =
      .httpError 404 "Note not found" := by
  have hs : (db.find? (fun m => m.id == n)).isSome := by
    rw [List.find?_isSome]
    rcases h with ⟨m, hm, hid⟩
    exact ⟨m, hm, by simpa using hid⟩
  cases hf : db.find? (fun m => m.id == n) with
  | none => rw [hf] at hs; cases hs
  | some u =>
      have habsent : ∀ m ∈ (delete_note db n).2, m.id ≠ n := by
        intro m hm
        rw [delete_note_of_found hf] at hm
        exact bne_iff_ne.mp (List.mem_filter.mp hm).2
      have hf2 : (delete_note db n).2.find? (fun m => m.id == n) = none := by
        rw [List.find?_eq_none]
        intro m hm
        simpa using habsent m hm
      refine ⟨?_, ?_, ?_⟩
      · rw [delete_note_of_found hf]
      · intro m hm
        exact habsent m (mem_of_mem_read hm)
      · rw [delete_note_of_absent hf2]

/-- Sample one-row store. -/
def oneNote : DB := [⟨1, "A", "B", some 0⟩]

/-- Witness for C3 on a store holding the single note with id 1. -/
theorem delete_removes_permanently_witness :
    (∃ m ∈ oneNote, m.id = 1) ∧
    ((delete_note oneNote 1).1 = .ok "success" "Note deleted" ∧
     (∀ m ∈ (read_notes (delete_note oneNote 1).2 0 100).1, m.id ≠ 1) ∧
     (delete_note (delete_note oneNote 1).2 1).1 =
       .httpError 404 "Note not found") :=
  ⟨by decide, delete_removes_permanently oneNote 1 (by decide)⟩

/-- C4: with at most 100 rows stored, listing with the default parameters
returns every row; with limit 1 it returns exactly one row (when the store is
non-empty); skipping past the whole store returns the empty sequence; and the
empty store lists as the empty sequence. -/
theorem read_counts (db : DB) :
    (db.length ≤ 100 → ((read_notes db 0 100).1).length = db.length) ∧
    (1 ≤ db.length → ((read_notes db 0 1).1).length = 1) ∧
    (read_notes db (db.length : Int) 100).1 = [] ∧
    (read_notes ([] : DB) 0 100).1 = [] := by
  refine ⟨?_, ?_, ?_, rfl⟩
  · intro h
    simp only [read_notes]
    norm_num [List.length_take]
    omega
  · intro h
    simp only [read_notes]
    norm_num [List.length_take]
    omega
  · simp only [read_notes]
    norm_num [Int.toNat_natCast]

/-- Witness for C4 on a store holding one note. -/
theorem read_counts_witness :
    (oneNote.length ≤ 100 ∧ ((read_notes oneNote 0 100).1).length = oneNote.length) ∧
    (1 ≤ oneNote.length ∧ ((read_notes oneNote 0 1).1).length = 1) :=
  ⟨⟨by decide, (read_counts oneNote).1 (by decide)⟩,
   ⟨by decide, (read_counts oneNote).2.1 (by decide)⟩⟩

/-- Validation of a malformed body fails naming every offending field. -/
lemma validate_error_of_bad {p : RawPayload}
    (h : titleBad p.title = true ∨ contentBad p.content = true) :
    ∃ e : ValidationError, validate_note_create p = .error e ∧ e.fields ≠ [] ∧
      (titleBad p.title = true → "title" ∈ e.fields) ∧
      (contentBad p.content = true → "content" ∈ e.fields) := by
  rcases p with ⟨tOpt, cOpt⟩
  rcases tOpt with _ | (ts | _ | _) <;> rcases cOpt with _ | (cs | _ | _)
  all_goals first
  | exact ⟨⟨["title"]⟩, rfl, by decide, fun _ => by decide,
      fun hc => Bool.noConfusion hc⟩
  | exact ⟨⟨["title", "content"]⟩, rfl, by decide, fun _ => by decide,
      fun _ => by decide⟩
  | exact ⟨⟨(if ts.isEmpty then ["title"] else []) ++ ["content"]⟩, rfl,
      by by_cases hts : ts.isEmpty = true <;> simp [hts],
      fun ht => by
        have hts : ts.isEmpty = true := ht
        simp [hts],
      fun _ => by simp⟩
  | exact ⟨⟨["title"]⟩, by
      have ht : ts.isEmpty = true := by
        rcases h with h | h
        · exact h
        · exact Bool.noConfusion h
      simp [validate_note_create, ht], by decide, fun _ => by decide,
      fun hc => Bool.noConfusion hc⟩

/-- C5: a malformed create body — missing field, wrong kind, or empty
title — is rejected with a validation error identifying the offending
field(s), and the table is untouched. -/
theorem invalid_create_rejected (db : DB) (p : RawPayload) (now : Int)
    (h : titleBad p.title = true ∨ contentBad p.content = true) :
    ∃ e : ValidationError, (api_create db p now).1 = .error e ∧ e.fields ≠ [] ∧
      (titleBad p.title = true → "title" ∈ e.fields) ∧
      (contentBad p.content = true → "content" ∈ e.fields) ∧
      (api_create db p now).2 = db := by
  rcases validate_error_of_bad h with ⟨e, hv, hne, hti, hco⟩
  refine ⟨e, ?_, hne, hti, hco, ?_⟩
  · unfold api_create
    rw [hv]
  · unfold api_create
    rw [hv]

/-- Sample malformed create-request body: empty title. -/
def emptyTitlePayload : RawPayload := ⟨some (.str ""), some (.str "B")⟩

/-- Witness for C5 on the empty store and a body with an empty title. -/
theorem invalid_create_rejected_witness :
    (titleBad emptyTitlePayload.title = true ∨
      contentBad emptyTitlePayload.content = true) ∧
    (∃ e : ValidationError,
      (api_create [] emptyTitlePayload 0).1 = .error e ∧ e.fields ≠ [] ∧
      (titleBad emptyTitlePayload.title = true → "title" ∈ e.fields) ∧
      (contentBad emptyTitlePayload.content = true → "content" ∈ e.fields) ∧
      (api_create [] emptyTitlePayload 0).2 = []) :=
  ⟨Or.inl rfl, invalid_create_rejected [] emptyTitlePayload 0 (Or.inl rfl)⟩

/-- C6 counterexample: create a note (it gets id 1), delete it, create
again — SQLite reassigns rowid 1, so the second note reuses the id of the
deleted one and is not greater than an id assigned before it. -/
theorem id_reused_after_delete :
    (create_note (delete_note (create_note [] "a" "b" 0).2
        (create_note [] "a" "b" 0).1.id).2 "c" "d" 1).1.id =
      (create_note [] "a" "b" 0).1.id := by decide

/-- C6 amended: ids are system-assigned; in every reachable state the stored
ids are pairwise distinct, and a newly created note receives an id strictly
greater than every id stored at that moment — but ids of deleted notes can be
reused once no larger id remains stored. -/
theorem ids_unique_and_fresh (db : DB) (hr : Reachable db) :
    ((db.map (fun m => m.id)).Nodup) ∧
    ∀ (t c : String) (now : Int), ∀ m ∈ db,
      m.id < (create_note db t c now).1.id :=
  ⟨reachable_nodup hr, fun _ _ _ _ hm => id_lt_nextId hm⟩

/-- Witness for the amended C6 on the reachable one-row store. -/
theorem ids_unique_and_fresh_witness :
    Reachable (create_note [] "a" "b" 0).2 ∧
    (((create_note [] "a" "b" 0).2.map (fun m => m.id)).Nodup ∧
     ∀ (t c : String) (now : Int), ∀ m ∈ (create_note [] "a" "b" 0).2,
       m.id < (create_note (create_note [] "a" "b" 0).2 t c now).1.id) :=
  ⟨Reachable.create Reachable.empty,
   ids_unique_and_fresh _ (Reachable.create Reachable.empty)⟩

/-- C7: listing is read-only and repeatable — with no intervening write, a
second list with the same parameters returns the same rows, and neither
invocation changes the table. -/
theorem read_idempotent (db : DB) (skip limit : Int) :
    (read_notes (read_notes db skip limit).2 skip limit).1 =
      (read_notes db skip limit).1 ∧
    (read_notes db skip limit).2 = db ∧
    (read_notes (read_notes db skip limit).2 skip limit).2 = db :=
  ⟨rfl, rfl, rfl⟩

/-- C10: a successful delete removes only the row bearing the requested id;
it keeps exactly the other rows, each unchanged in every field and in their
stored order. -/
theorem delete_frame (db : DB) (n : Int) (h : ∃ m ∈ db, m.id = n) :
    (delete_note db n).2.Sublist db ∧
    ∀ m : Note, m ∈ (delete_note db n).2 ↔ (m ∈ db ∧ m.id ≠ n) := by
  have hs : (db.find? (fun m => m.id == n)).isSome := by
    rw [List.find?_isSome]
    rcases h with ⟨m, hm, hid⟩
    exact ⟨m, hm, by simpa using hid⟩
  cases hf : db.find? (fun m => m.id == n) with
  | none => rw [hf] at hs; cases hs
  | some u =>
      refine ⟨delete_sublist db n, ?_⟩
      intro m
      rw [delete_note_of_found hf]
      show m ∈ db.filter (fun k => k.id != n) ↔ _
      rw [List.mem_filter]
      simp [bne_iff_ne]

/-- Sample two-row store. -/
def twoNotes : DB := [⟨1, "A", "B", some 0⟩, ⟨2, "C", "D", some 1⟩]

/-- Witness for C10: deleting id 1 from a two-row store. -/
theorem delete_frame_witness :
    (∃ m ∈ twoNotes, m.id = 1) ∧
    ((delete_note twoNotes 1).2.Sublist twoNotes ∧
     ∀ m : Note, m ∈ (delete_note twoNotes 1).2 ↔ (m ∈ twoNotes ∧ m.id ≠ 1)) :=
  ⟨by decide, delete_frame twoNotes 1 (by decide)⟩

/-- C8: the bridge create tool always returns a string; on a successful API
response the string contains the literal substring "Success" and the id the
API assigned, and on any status-level or transport-level failure it returns
the rendered error text. -/
theorem bridge_create_text (t c : String) (i : Int) (code : Nat) (m : String) :
    (∃ pre post, create_new_note t c (.success i) = pre ++ "Success" ++ post) ∧
    (∃ pre post, create_new_note t c (.success i) = pre ++ toString i ++ post) ∧
    create_new_note t c (.statusError code m) =
      "Error connecting to Notes App: " ++ m ∧
    create_new_note t c (.transportError m) =
      "Error connecting to Notes App: " ++ m := by
  refine ⟨⟨"", "! Note created with ID " ++ toString i ++ ".", ?_⟩,
    ⟨"Success! Note created with ID ", ".", rfl⟩, rfl, rfl⟩
  have hsplit : ("Success! Note created with ID " : String).data =
      ("Success" : String).data ++ ("! Note created with ID " : String).data := by
    decide
  apply String.ext
  simp only [create_new_note, String.data_append, hsplit, List.append_assoc,
    List.nil_append]
  simp [List.cons_append]

/-- Character list of the not-found text of the bridge delete tool at a
position inside its literal prefix. -/
lemma delete_msg_404_get (i : Int) :
    ∀ k : Nat, k < 20 →
      ("Error: Note with ID " ++ toString i ++ " was not found.").data[k]? =
        ("Error: Note with ID " : String).data[k]? := by
  intro k hk
  rw [String.data_append, String.data_append, List.append_assoc,
    List.getElem?_append_left (by rw [(by decide :
      ("Error: Note with ID " : String).data.length = 20)]; exact hk)]

/-- C9: the bridge delete tool renders the three outcomes — success, 404
not-found, other failure — as three texts, pairwise different in content and
in particular telling not-found apart from both success and a transport
error. -/
theorem bridge_delete_three_outcomes (i : Int) (m e : String) :
    delete_note_by_id i (.status 404 m) =
      "Error: Note with ID " ++ toString i ++ " was not found." ∧
    delete_note_by_id i (.status 200 m) =
      "Note " ++ toString i ++ " has been deleted." ∧
    delete_note_by_id i (.transportError e) = "Error deleting note: " ++ e ∧
    delete_note_by_id i (.status 404 m) ≠ delete_note_by_id i (.status 200 m) ∧
    delete_note_by_id i (.status 404 m) ≠ delete_note_by_id i (.transportError e) ∧
    delete_note_by_id i (.status 200 m) ≠ delete_note_by_id i (.transportError e) := by
  have h404 : ("Error: Note with ID " ++ toString i ++ " was not found.").data[0]? =
      some 'E' := by
    rw [delete_msg_404_get i 0 (by decide)]
    decide
  have h404five : ("Error: Note with ID " ++ toString i ++ " was not found.").data[5]? =
      some ':' := by
    rw [delete_msg_404_get i 5 (by decide)]
    decide
  have h200 : ("Note " ++ toString i ++ " has been deleted.").data[0]? =
      some 'N' := by
    rw [String.data_append, String.data_append, List.append_assoc,
      List.getElem?_append_left (by decide :
        0 < ("Note " : String).data.length)]
    decide
  have htr : ∀ k : Nat, k < 21 →
      ("Error deleting note: " ++ e).data[k]? =
        ("Error deleting note: " : String).data[k]? := by
    intro k hk
    rw [String.data_append, List.getElem?_append_left (by rw [(by decide :
      ("Error deleting note: " : String).data.length = 21)]; exact hk)]
  refine ⟨rfl, rfl, rfl, ?_, ?_, ?_⟩
  · exact string_ne_of_data_get _ _ 0 (by rw [show delete_note_by_id i (.status 404 m) =
      "Error: Note with ID " ++ toString i ++ " was not found." from rfl,
      show delete_note_by_id i (.status 200 m) =
        "Note " ++ toString i ++ " has been deleted." from rfl, h404, h200]; decide)
  · exact string_ne_of_data_get _ _ 5 (by rw [show delete_note_by_id i (.status 404 m) =
      "Error: Note with ID " ++ toString i ++ " was not found." from rfl,
      show delete_note_by_id i (.transportError e) =
        "Error deleting note: " ++ e from rfl, h404five, htr 5 (by decide)]; decide)
  · exact string_ne_of_data_get _ _ 0 (by rw [show delete_note_by_id i (.status 200 m) =
      "Note " ++ toString i ++ " has been deleted." from rfl,
      show delete_note_by_id i (.transportError e) =
        "Error deleting note: " ++ e from rfl, h200, htr 0 (by decide)]; decide)

end NotesApp
